import Mathlib

/-
Shallow embedding of the NBT decoder (src/decode.go) of ExerciseBook/go.nbt.

Streams are modelled as lists of byte values (Nat).  `readFull` models
`binary.Read` (which uses io.ReadFull internally: a short stream is an
error), while `streamRead` models a single bare `io.Reader.Read` call on a
bytes-backed reader: it delivers `min n available` bytes and only errors
with EOF when the stream is already exhausted.

Destination values (`reflect.Value` slots) are modelled by `GoValue`;
`readValue` passes the updated slot back explicitly instead of mutating it
in place.  Recursion of the decoder is made structural with an explicit
fuel argument; every theorem quantifies over enough fuel.
-/

namespace NBT

/-- Modelled from the spec: the tag enumeration of the missing nbt.go, in
the spec's order (End, Byte, Short, Int, Long, Float, Double, ByteArray,
String, List, Compound, IntArray). -/
def TAG_End : Nat := 0

def TAG_Byte : Nat := 1

def TAG_Short : Nat := 2

def TAG_Int : Nat := 3

def TAG_Long : Nat := 4

def TAG_Float : Nat := 5

def TAG_Double : Nat := 6

def TAG_Byte_Array : Nat := 7

def TAG_String : Nat := 8

def TAG_List : Nat := 9

def TAG_Compound : Nat := 10

def TAG_Int_Array : Nat := 11

/-- Modelled from the spec: the Stringer of the missing nbt.go, rendering a
tag for the `%s` verbs of the decoder's error messages. -/
def tagName (t : Nat) : String :=
  if t = TAG_End then "TAG_End"
  else if t = TAG_Byte then "TAG_Byte"
  else if t = TAG_Short then "TAG_Short"
  else if t = TAG_Int then "TAG_Int"
  else if t = TAG_Long then "TAG_Long"
  else if t = TAG_Float then "TAG_Float"
  else if t = TAG_Double then "TAG_Double"
  else if t = TAG_Byte_Array then "TAG_Byte_Array"
  else if t = TAG_String then "TAG_String"
  else if t = TAG_List then "TAG_List"
  else if t = TAG_Compound then "TAG_Compound"
  else if t = TAG_Int_Array then "TAG_Int_Array"
  else "TAG_Unknown"

/-- A destination slot, mirroring the reflect.Kind cases `readValue`
dispatches on.  `vInt`/`vUint` are Go's architecture-width int/uint.
A slice carries the zero value of its element type, its backing storage
(whose length is the capacity) and its length. -/
inductive GoValue where
  | vBool (b : Bool)
  | vInt8 (n : Int)
  | vInt16 (n : Int)
  | vInt32 (n : Int)
  | vInt64 (n : Int)
  | vUint8 (n : Nat)
  | vUint16 (n : Nat)
  | vUint32 (n : Nat)
  | vUint64 (n : Nat)
  | vInt (n : Int)
  | vUint (n : Nat)
  | vFloat32 (bits : Nat)
  | vFloat64 (bits : Nat)
  | vString (bytes : List Nat)
  | vArray (elems : List GoValue)
  | vSlice (zero : GoValue) (backing : List GoValue) (len : Nat)
  | vStruct (fields : List (List Nat × GoValue))

/-- Go reflect.Kind names, for the `%s` of error messages. -/
def kindName : GoValue → String
  | .vBool _ => "bool"
  | .vInt8 _ => "int8"
  | .vInt16 _ => "int16"
  | .vInt32 _ => "int32"
  | .vInt64 _ => "int64"
  | .vUint8 _ => "uint8"
  | .vUint16 _ => "uint16"
  | .vUint32 _ => "uint32"
  | .vUint64 _ => "uint64"
  | .vInt _ => "int"
  | .vUint _ => "uint"
  | .vFloat32 _ => "float32"
  | .vFloat64 _ => "float64"
  | .vString _ => "string"
  | .vArray _ => "array"
  | .vSlice _ _ _ => "slice"
  | .vStruct _ => "struct"

/-- The architecture-width kinds rejected at the top of `readValue`. -/
def isNative : GoValue → Bool
  | .vInt _ => true
  | .vUint _ => true
  | _ => false

def portabilityMsg : String :=
  "nbt: int and uint types are not supported for portability reasons. Try int32 or uint32."

def mismatchMsg (tag : Nat) (v : GoValue) : String :=
  "nbt: Tag is " ++ tagName tag ++ ", but I don\x27t know how to put that in a " ++
    kindName v ++ "!"

def byteArrayMsg (length vLen : Nat) : String :=
  "nbt: Byte array is of length " ++ toString length ++
    ", but only the array given is only " ++ toString vLen ++ " long!"

/-- Rendering of a name (a byte list) for error messages. -/
def renderName (bs : List Nat) : String :=
  String.mk (bs.map Char.ofNat)

def unhandledFieldMsg (tag : Nat) (name : List Nat) : String :=
  "nbt: Unhandled " ++ tagName tag ++ " field " ++ renderName name

def unhandledTagMsg (tag : Nat) : String :=
  "nbt: Unhandled tag: " ++ tagName tag

/-- Big-endian value of a byte list (binary.BigEndian). -/
def beVal (bs : List Nat) : Nat :=
  bs.foldl (fun acc b => acc * 256 + b) 0

/-- Big-endian encoding of a value into `w` bytes. -/
def beBytes : Nat → Nat → List Nat
  | 0, _ => []
  | w + 1, n => beBytes w (n / 256) ++ [n % 256]

/-- Two's-complement reading of a `w`-bit unsigned value, as done by Go's
conversions int8(...)/int16(...)/int64(...). -/
def toSigned (w : Nat) (n : Nat) : Int :=
  if n < 2 ^ (w - 1) then (n : Int) else (n : Int) - 2 ^ w

/-- A single bare `io.Reader.Read` into a buffer of `n` bytes over a
bytes-backed stream: EOF only when the stream is exhausted; otherwise it
delivers up to `n` bytes, without error even when fewer are available. -/
def streamRead (n : Nat) (s : List Nat) : Except String (List Nat × List Nat) :=
  match s with
  | [] => .error "EOF"
  | _ :: _ => .ok (s.take n, s.drop n)

/-- Model of `binary.Read` byte consumption (io.ReadFull): exactly `n`
bytes or an error. -/
def readFull (n : Nat) (s : List Nat) : Except String (List Nat × List Nat) :=
  if n ≤ s.length then .ok (s.take n, s.drop n) else .error "unexpected EOF"

/-- Model of decodeState.readString: a 2-byte big-endian length, then ONE
bare Read into a zeroed buffer of that length (the returned count is
ignored by the source, so a short delivery yields a zero-padded string). -/
def readString (s : List Nat) : Except String (List Nat × List Nat) := do
  let (lenB, s1) ← readFull 2 s
  let length := beVal lenB
  let (r, s2) ← streamRead length s1
  pure (r ++ List.replicate (length - r.length) 0, s2)

/-- Model of decodeState.readTag: one tag byte; TAG_End carries no name,
any other tag is followed by its name. -/
def readTag (s : List Nat) : Except String (List Nat × Nat × List Nat) := do
  let (tb, s1) ← readFull 1 s
  let tag := tb.headD 0
  if tag = TAG_End then pure ([], tag, s1)
  else do
    let (name, s2) ← readString s1
    pure (name, tag, s2)

/-- Modelled from the spec: the name-to-slot mapping produced by the
missing parseStruct, as lookup in the destination struct's field list. -/
def lookupField : List (List Nat × GoValue) → List Nat → Option GoValue
  | [], _ => none
  | (k, w) :: rest, name => if k = name then some w else lookupField rest name

/-- Writing a decoded slot back into the field list (the model's stand-in
for mutation through the reflect.Value slot). -/
def setField : List (List Nat × GoValue) → List Nat → GoValue → List (List Nat × GoValue)
  | [], _, _ => []
  | (k, w) :: rest, name, nv =>
    if k = name then (k, nv) :: rest else (k, w) :: setField rest name nv

/-- reflect.Append on a (backing, length) slice: within capacity it writes
in place, otherwise it reallocates with the live elements plus the new
one. -/
def sliceAppend (backing : List GoValue) (len : Nat) (x : GoValue) :
    List GoValue × Nat :=
  if len < backing.length then (backing.set len x, len + 1)
  else (backing.take len ++ [x], len + 1)

/-- Runs a fallible step `n` times, threading the state. -/
def iterateExc {α : Type} : Nat → (α → Except String α) → α → Except String α
  | 0, _, a => .ok a
  | n + 1, f, a => do iterateExc n f (← f a)

/-- True when every element is a byte value; reflect.Value.Bytes panics on
a non-byte slice or array. -/
def allBytes : List GoValue → Bool
  | [] => true
  | .vUint8 _ :: rest => allBytes rest
  | _ :: _ => false

def bytesPanicMsg : String :=
  "reflect: call of reflect.Value.Bytes on non-byte value"

/-- The reflect panic string raised by a Set method on a value that is not
addressable, as produced by reflect's mustBeAssignable check; list
elements built with reflect.Zero are such values. -/
def unaddressableMsg (method : String) : String :=
  "reflect: reflect.Value." ++ method ++ " using unaddressable value"

/-- The reflect panic string raised by Value.Slice on an unaddressable
array. -/
def sliceUnaddressableMsg : String :=
  "reflect.Value.Slice: slice of unaddressable array"

/-- The compound-member scan of the TAG_Compound case: read a named entry,
stop on TAG_End, otherwise decode into the looked-up field or fail on an
unknown name.  `decodeEntry` is the recursive decoder, `k` bounds the
number of iterations (the embedding's fuel). -/
def compoundLoop
    (decodeEntry : Nat → GoValue → List Nat → Except String (GoValue × List Nat)) :
    Nat → List (List Nat × GoValue) → List Nat →
      Except String (List (List Nat × GoValue) × List Nat)
  | 0, _, _ => .error "nbt: recursion limit exceeded"
  | k + 1, fields, s => do
    let (name, tag, s1) ← readTag s
    if tag = TAG_End then pure (fields, s1)
    else
      match lookupField fields name with
      | some slot => do
        let (slot2, s2) ← decodeEntry tag slot s1
        compoundLoop decodeEntry k (setField fields name slot2) s2
      | none => .error (unhandledFieldMsg tag name)

/-- Model of decodeState.readValue: the architecture-width kind check, then
the dispatch on the tag.  The updated destination slot is returned.
`canSet` models whether the reflect.Value slot is settable: the top-level
destination and struct fields are, but the list loop decodes each element
into reflect.Zero(kind), which is not settable, so there every Set method
panics; the panic is raised exactly where the source calls the setter,
after the payload bytes were read. -/
def readValue : Nat → Nat → GoValue → Bool → List Nat → Except String (GoValue × List Nat)
  | 0, _, _, _, _ => .error "nbt: recursion limit exceeded"
  | fuel + 1, tag, v, canSet, s =>
    if isNative v then .error portabilityMsg
    else if tag = TAG_Byte then
      (do
        let (b, s1) ← readFull 1 s
        let value := b.headD 0
        match v with
        | .vBool _ =>
          if canSet then pure (.vBool (value != 0), s1)
          else .error (unaddressableMsg "SetBool")
        | .vInt8 _ =>
          if canSet then pure (.vInt8 (toSigned 8 value), s1)
          else .error (unaddressableMsg "SetInt")
        | .vUint8 _ =>
          if canSet then pure (.vUint8 value, s1)
          else .error (unaddressableMsg "SetUint")
        | _ => .error (mismatchMsg tag v))
    else if tag = TAG_Short then
      (do
        let (b, s1) ← readFull 2 s
        let value := beVal b
        match v with
        | .vInt16 _ =>
          if canSet then pure (.vInt16 (toSigned 16 value), s1)
          else .error (unaddressableMsg "SetInt")
        | .vUint16 _ =>
          if canSet then pure (.vUint16 value, s1)
          else .error (unaddressableMsg "SetUint")
        | _ => .error (mismatchMsg tag v))
    else if tag = TAG_Int then
      (do
        let (b, s1) ← readFull 4 s
        let value := beVal b
        match v with
        -- source: v.SetInt(int64(int16(value))) — truncates through int16
        | .vInt32 _ =>
          if canSet then pure (.vInt32 (toSigned 16 (value % 2 ^ 16)), s1)
          else .error (unaddressableMsg "SetInt")
        | .vUint32 _ =>
          if canSet then pure (.vUint32 value, s1)
          else .error (unaddressableMsg "SetUint")
        | _ => .error (mismatchMsg tag v))
    else if tag = TAG_Long then
      (do
        let (b, s1) ← readFull 8 s
        let value := beVal b
        match v with
        | .vInt64 _ =>
          if canSet then pure (.vInt64 (toSigned 64 value), s1)
          else .error (unaddressableMsg "SetInt")
        | .vUint64 _ =>
          if canSet then pure (.vUint64 value, s1)
          else .error (unaddressableMsg "SetUint")
        | _ => .error (mismatchMsg tag v))
    else if tag = TAG_Float then
      (do
        let (b, s1) ← readFull 4 s
        match v with
        | .vFloat32 _ =>
          if canSet then pure (.vFloat32 (beVal b), s1)
          else .error (unaddressableMsg "SetFloat")
        | _ => .error (mismatchMsg tag v))
    else if tag = TAG_Double then
      (do
        let (b, s1) ← readFull 8 s
        match v with
        | .vFloat64 _ =>
          if canSet then pure (.vFloat64 (beVal b), s1)
          else .error (unaddressableMsg "SetFloat")
        | _ => .error (mismatchMsg tag v))
    else if tag = TAG_Byte_Array then
      (do
        let (lb, s1) ← readFull 4 s
        let length := beVal lb
        match v with
        | .vArray elems =>
          if elems.length < length then
            .error (byteArrayMsg length elems.length)
          -- v.Slice(0, length) panics on an unaddressable array
          else if !canSet then .error sliceUnaddressableMsg
          else if allBytes elems then do
            let (r, s2) ← streamRead length s1
            pure (.vArray ((r.map GoValue.vUint8) ++ elems.drop r.length), s2)
          else .error bytesPanicMsg
        | .vSlice zero backing len =>
          -- growing under capacity calls v.Set(MakeSlice), a Set method
          if backing.length < length ∧ canSet = false then
            .error (unaddressableMsg "Set")
          else
            -- grow to exactly `length` when capacity is under it
            let p := if backing.length < length
              then (List.replicate length zero, length) else (backing, len)
            match zero with
            | .vUint8 _ => do
              let (r, s2) ← streamRead length s1
              pure (.vSlice zero ((r.map GoValue.vUint8) ++ p.1.drop r.length) p.2, s2)
            | _ => .error bytesPanicMsg
        | _ => .error (mismatchMsg tag v))
    else if tag = TAG_String then
      (match v with
        | .vString _ => do
          let (str, s1) ← readString s
          if canSet then pure (.vString str, s1)
          else .error (unaddressableMsg "SetString")
        | _ => .error (mismatchMsg tag v))
    else if tag = TAG_List then
      (do
        let (ib, s1) ← readFull 1 s
        let inner := ib.headD 0
        let (lb, s2) ← readFull 4 s1
        let length := beVal lb
        match v with
        | .vSlice zero backing _len =>
          -- both reset branches call v.Set, a Set method
          if canSet then
            -- reset to empty, reusing the backing when capacity suffices
            let p := if backing.length < length
              then (List.replicate length zero, 0) else (backing, 0)
            -- each element slot is reflect.Zero(kind): not settable
            let step : List GoValue × Nat × List Nat →
                Except String (List GoValue × Nat × List Nat) :=
              fun st => do
                let (w, s3) ← readValue fuel inner zero false st.2.2
                let q := sliceAppend st.1 st.2.1 w
                pure (q.1, q.2, s3)
            match iterateExc length step (p.1, p.2, s2) with
            | .ok (b2, l2, s3) => pure (.vSlice zero b2 l2, s3)
            | .error e => .error e
          else .error (unaddressableMsg "Set")
        | _ => .error (mismatchMsg tag v))
    else if tag = TAG_Compound then
      (match v with
        | .vStruct fields => do
          -- struct fields inherit the addressability of the struct value
          let (fields2, s1) ←
            compoundLoop (fun t w s2 => readValue fuel t w canSet s2) fuel fields s
          pure (.vStruct fields2, s1)
        | _ => .error (mismatchMsg tag v))
    else .error (unhandledTagMsg tag)

/-- Model of decodeState.unmarshal: read the top-level named tag (name
discarded) and decode its payload into the destination, which is the
addressable Elem of the caller's pointer. -/
def unmarshalD (fuel : Nat) (s : List Nat) (v : GoValue) :
    Except String (GoValue × List Nat) := do
  let (_, tag, s1) ← readTag s
  readValue fuel tag v true s1

/-- Modelled from the spec: the compression selector of the missing nbt.go
(None / GZip / ZLib), with a case for every other numeric value. -/
inductive Compression where
  | uncompressed
  | gzip
  | zlib
  | unknown (code : Nat)

/-- The input argument of Unmarshal: a nil io.Reader or a byte stream. -/
inductive Input where
  | nilReader
  | stream (bytes : List Nat)

/-- Modelled from the spec: gzip.NewReader succeeds only on a well-formed
gzip header, modelled as the two magic bytes 0x1f 0x8b; the decompressed
payload itself is out of scope and passed through. -/
def gzipHeaderOk (bs : List Nat) : Bool :=
  match bs with
  | b0 :: b1 :: _ => b0 == 0x1f && b1 == 0x8b
  | _ => false

def gzipNewReader (bs : List Nat) : Except String (List Nat) :=
  if gzipHeaderOk bs then .ok (bs.drop 2) else .error "gzip: invalid header"

/-- Modelled from the spec: zlib.NewReader succeeds only on a well-formed
zlib header, modelled as the CMF/FLG check (method 8, checksum multiple of
31); the decompressed payload itself is out of scope and passed through. -/
def zlibHeaderOk (bs : List Nat) : Bool :=
  match bs with
  | b0 :: b1 :: _ => (b0 % 16 == 8) && ((b0 * 256 + b1) % 31 == 0)
  | _ => false

def zlibNewReader (bs : List Nat) : Except String (List Nat) :=
  if zlibHeaderOk bs then .ok (bs.drop 2) else .error "zlib: invalid header"

/-- Model of decodeState.init: nil-stream check first, then the
compression switch. -/
def initD (compression : Compression) (i : Input) : Except String (List Nat) :=
  match i with
  | .nilReader => .error "nbt: Input stream is nil"
  | .stream bs =>
    match compression with
    | .uncompressed => .ok bs
    | .gzip => gzipNewReader bs
    | .zlib => zlibNewReader bs
    | .unknown code => .error ("nbt: Unknown compression type: " ++ toString code)

/-- Model of Unmarshal: init then unmarshal, with every panic surfaced as
the error result. -/
def Unmarshal (fuel : Nat) (compression : Compression) (i : Input) (v : GoValue) :
    Except String (GoValue × List Nat) := do
  let s ← initD compression i
  unmarshalD fuel s v

/-! Evaluation lemmas for the stream primitives. -/

@[simp] theorem except_bind_ok {α β : Type} (a : α) (f : α → Except String β) :
    Bind.bind (Except.ok a) f = f a := rfl

@[simp] theorem except_bind_error {α β : Type} (e : String) (f : α → Except String β) :
    Bind.bind (Except.error e : Except String α) f = Except.error e := rfl

@[simp] theorem except_map_ok {α β : Type} (f : α → β) (a : α) :
    (f <$> (Except.ok a : Except String α)) = Except.ok (f a) := rfl

@[simp] theorem except_map_error {α β : Type} (f : α → β) (e : String) :
    (f <$> (Except.error e : Except String α)) = Except.error e := rfl

@[simp] theorem except_pure_eq_ok {α : Type} (a : α) :
    (pure a : Except String α) = Except.ok a := rfl

theorem beBytes_length (w n : Nat) : (beBytes w n).length = w := by
  induction w generalizing n with
  | zero => rfl
  | succ w ih => simp [beBytes, ih]

theorem beVal_append_one (bs : List Nat) (b : Nat) :
    beVal (bs ++ [b]) = beVal bs * 256 + b := by
  simp [beVal, List.foldl_append]

theorem beVal_beBytes (w n : Nat) : beVal (beBytes w n) = n % 256 ^ w := by
  induction w generalizing n with
  | zero => simp [beBytes, beVal]; omega
  | succ w ih =>
    rw [beBytes, beVal_append_one, ih, pow_succ', Nat.mod_mul]
    generalize n / 256 % 256 ^ w = k
    omega

theorem readFull_append (pre rest : List Nat) :
    readFull pre.length (pre ++ rest) = .ok (pre, rest) := by
  rw [readFull, if_pos (by simp)]
  rw [List.take_left, List.drop_left]

theorem readFull_cons1 (b0 : Nat) (rest : List Nat) :
    readFull 1 (b0 :: rest) = .ok ([b0], rest) :=
  readFull_append [b0] rest

theorem readFull_cons2 (b0 b1 : Nat) (rest : List Nat) :
    readFull 2 (b0 :: b1 :: rest) = .ok ([b0, b1], rest) :=
  readFull_append [b0, b1] rest

theorem readFull_cons4 (b0 b1 b2 b3 : Nat) (rest : List Nat) :
    readFull 4 (b0 :: b1 :: b2 :: b3 :: rest) = .ok ([b0, b1, b2, b3], rest) :=
  readFull_append [b0, b1, b2, b3] rest

theorem readFull_cons8 (b0 b1 b2 b3 b4 b5 b6 b7 : Nat) (rest : List Nat) :
    readFull 8 (b0 :: b1 :: b2 :: b3 :: b4 :: b5 :: b6 :: b7 :: rest) =
      .ok ([b0, b1, b2, b3, b4, b5, b6, b7], rest) :=
  readFull_append [b0, b1, b2, b3, b4, b5, b6, b7] rest

theorem streamRead_cons (n x : Nat) (xs : List Nat) :
    streamRead n (x :: xs) = .ok ((x :: xs).take n, (x :: xs).drop n) := rfl

theorem streamRead_all (payload rest : List Nat) (h : payload ++ rest ≠ []) :
    streamRead payload.length (payload ++ rest) = .ok (payload, rest) := by
  obtain ⟨x, xs, hxs⟩ := List.exists_cons_of_ne_nil h
  rw [show payload ++ rest = x :: xs from hxs, streamRead_cons, ← hxs]
  rw [List.take_left, List.drop_left]

theorem readFull_beBytes (w n : Nat) (rest : List Nat) :
    readFull w (beBytes w n ++ rest) = .ok (beBytes w n, rest) := by
  have h := readFull_append (beBytes w n) rest
  rwa [beBytes_length] at h

theorem readString_exact (name rest : List Nat) (h1 : name.length < 2 ^ 16)
    (h2 : name ++ rest ≠ []) :
    readString (beBytes 2 name.length ++ (name ++ rest)) = .ok (name, rest) := by
  have hmod : name.length % 65536 = name.length :=
    Nat.mod_eq_of_lt (lt_of_lt_of_le h1 (by norm_num))
  simp [readString, readFull_beBytes, beVal_beBytes, hmod, streamRead_all _ _ h2]

theorem readValue_int32_unaddressable (fuel : Nat) (i0 : Int) (b0 b1 b2 b3 : Nat)
    (rest : List Nat) :
    readValue (fuel + 1) TAG_Int (.vInt32 i0) false (b0 :: b1 :: b2 :: b3 :: rest) =
      .error (unaddressableMsg "SetInt") := by
  simp [readValue, readFull_cons4, isNative, TAG_Byte, TAG_Short, TAG_Int]

/-! The claims. -/

/-- Claim C1 (code bug in the source): decoding a TAG_Int payload into a
signed 32-bit slot goes through Go's int16 conversion
(`v.SetInt(int64(int16(value)))`) and loses the top 16 bits: the payload
bytes 00 01 00 00 encode 65536, yet the slot receives 0. -/
theorem int32_truncates_high_bits :
    readValue 1 TAG_Int (.vInt32 0) true [0, 1, 0, 0] = .ok (.vInt32 0, []) ∧
      beVal [0, 1, 0, 0] = 65536 :=
  ⟨rfl, by norm_num [beVal]⟩

/-- Claim C3 (code bug in the source): a length-prefixed read whose stream
delivers fewer bytes than declared does NOT fail: the source issues a
single `Read` and ignores the returned count, so a string of declared
length 5 over 3 remaining bytes decodes successfully, zero-padded, and a
ByteArray of declared length 5 over 3 remaining bytes does the same. -/
theorem short_read_succeeds :
    readString [0, 5, 97, 98, 99] = .ok ([97, 98, 99, 0, 0], []) ∧
      readValue 1 TAG_Byte_Array (.vSlice (.vUint8 0) [] 0) true [0, 0, 0, 5, 97, 98, 99] =
        .ok (.vSlice (.vUint8 0)
          [.vUint8 97, .vUint8 98, .vUint8 99, .vUint8 0, .vUint8 0] 5, []) :=
  ⟨rfl, rfl⟩

/-- Claim C6: an architecture-width int or uint destination slot is
rejected for every tag and every stream content, ahead of the tag
dispatch. -/
theorem native_int_uint_rejected :
    ∀ (fuel tag : Nat) (canSet : Bool) (s : List Nat) (n : Int) (m : Nat),
      readValue (fuel + 1) tag (.vInt n) canSet s = .error portabilityMsg ∧
        readValue (fuel + 1) tag (.vUint m) canSet s = .error portabilityMsg :=
  fun _ _ _ _ _ _ => ⟨rfl, rfl⟩

/-- Claim C8: a compound whose entry list is empty (the first payload byte
is the End tag) decodes successfully and leaves every field of the
destination struct at its pre-call value. -/
theorem compound_empty_preserves_fields :
    ∀ (fuel : Nat) (fields : List (List Nat × GoValue)) (rest : List Nat),
      readValue (fuel + 2) TAG_Compound (.vStruct fields) true (TAG_End :: rest) =
        .ok (.vStruct fields, rest) := by
  intro fuel fields rest
  simp [readValue, compoundLoop, readTag, readFull_cons1, TAG_End, TAG_Byte, TAG_Short,
    TAG_Int, TAG_Long, TAG_Float, TAG_Double, TAG_Byte_Array, TAG_String, TAG_List,
    TAG_Compound, isNative]

/-- Claim C9: a TAG_Byte payload byte b goes two's-complement into a
signed 8-bit slot (0xFF gives -1) and unchanged into an unsigned 8-bit
slot (0xFF gives 255). -/
theorem byte_signed_unsigned (fuel b : Nat) (i0 : Int) (u0 : Nat) (rest : List Nat)
    (_hb : b < 256) :
    readValue (fuel + 1) TAG_Byte (.vInt8 i0) true (b :: rest) =
      .ok (.vInt8 (if b < 128 then (b : Int) else (b : Int) - 256), rest) ∧
      readValue (fuel + 1) TAG_Byte (.vUint8 u0) true (b :: rest) = .ok (.vUint8 b, rest) := by
  have : (2 : Nat) ^ (8 - 1) = 128 := by norm_num
  constructor <;>
    simp [readValue, readFull_cons1, isNative, toSigned, TAG_Byte, this]

theorem byte_signed_unsigned_witness :
    readValue 1 TAG_Byte (.vInt8 0) true [255] = .ok (.vInt8 (-1), []) ∧
      readValue 1 TAG_Byte (.vUint8 0) true [255] = .ok (.vUint8 255, []) := by
  have h := byte_signed_unsigned 0 255 0 0 [] (by norm_num)
  exact ⟨h.1.trans (by norm_num), h.2⟩

/-- Claim C10: a TAG_Byte payload decoded into a boolean slot stores true
iff the payload byte is nonzero (any nonzero byte, not only 1). -/
theorem byte_bool_iff_nonzero :
    ∀ (fuel b : Nat) (b0 : Bool) (rest : List Nat),
      readValue (fuel + 1) TAG_Byte (.vBool b0) true (b :: rest) = .ok (.vBool true, rest)
        ↔ b ≠ 0 := by
  intro fuel b b0 rest
  simp [readValue, readFull_cons1, isNative, TAG_Byte]

/-- Claim C2 (code bug in the source): the list loop decodes each element
into reflect.Zero(kind), which is not settable, so the first element write
panics and the decode of a List of Int with count 3 and payload values
1, 2, 3 into a slice-of-int32 destination returns the reflect
unaddressable-value error for every prior contents of the destination,
never the claimed success with [1, 2, 3]; a count-0 list, which writes no
element, still succeeds. -/
theorem list_element_write_panics :
    ∀ (fuel : Nat) (backing : List GoValue) (len : Nat) (rest : List Nat),
      readValue (fuel + 2) TAG_List (.vSlice (.vInt32 0) backing len) true
          (TAG_Int :: 0 :: 0 :: 0 :: 3 :: 0 :: 0 :: 0 :: 1 :: 0 :: 0 :: 0 :: 2 ::
            0 :: 0 :: 0 :: 3 :: rest) =
        .error (unaddressableMsg "SetInt") ∧
      readValue (fuel + 2) TAG_List (.vSlice (.vInt32 0) [] 0) true
          (TAG_Int :: 0 :: 0 :: 0 :: 0 :: rest) =
        .ok (.vSlice (.vInt32 0) [] 0, rest) := by
  intro fuel backing len rest
  constructor
  · simp [readValue, readFull_cons1, readFull_cons4, isNative, TAG_Byte, TAG_Short, TAG_Int,
      TAG_Long, TAG_Float, TAG_Double, TAG_Byte_Array, TAG_String, TAG_List, iterateExc,
      beVal, readValue_int32_unaddressable]
  · simp [readValue, readFull_cons1, readFull_cons4, isNative, TAG_Byte, TAG_Short, TAG_Int,
      TAG_Long, TAG_Float, TAG_Double, TAG_Byte_Array, TAG_String, TAG_List, iterateExc,
      beVal]

/-- Claim C4: a TAG_Byte_Array of declared length L fails on a fixed
array destination shorter than L with an error citing both lengths, and
into a growable slice destination of capacity under L it grows the
destination to exactly L and copies the L payload bytes. -/
theorem byteArray_capacity (fuel L : Nat) (elems : List GoValue) (payload : List Nat)
    (backing : List GoValue) (len : Nat) (rest : List Nat) :
    (L < 2 ^ 32 → elems.length < L →
      readValue (fuel + 1) TAG_Byte_Array (.vArray elems) true (beBytes 4 L ++ rest) =
        .error (byteArrayMsg L elems.length)) ∧
    (L < 2 ^ 32 → payload.length = L → backing.length < L →
      readValue (fuel + 1) TAG_Byte_Array (.vSlice (.vUint8 0) backing len) true
          (beBytes 4 L ++ (payload ++ rest)) =
        .ok (.vSlice (.vUint8 0) (payload.map GoValue.vUint8) L, rest)) := by
  constructor
  · intro hL hlen
    have hmod : L % 4294967296 = L := Nat.mod_eq_of_lt (lt_of_lt_of_le hL (by norm_num))
    simp [readValue, readFull_beBytes, isNative, TAG_Byte, TAG_Short, TAG_Int,
      TAG_Long, TAG_Float, TAG_Double, TAG_Byte_Array, beVal_beBytes, hmod, hlen]
  · intro hL hplen hcap
    subst hplen
    have hmod : payload.length % 4294967296 = payload.length :=
      Nat.mod_eq_of_lt (lt_of_lt_of_le hL (by norm_num))
    have hne : payload ++ rest ≠ [] := by
      intro h
      rcases List.append_eq_nil.mp h with ⟨h1, _⟩
      subst h1
      simp at hcap
    simp [readValue, readFull_beBytes, isNative, TAG_Byte, TAG_Short, TAG_Int,
      TAG_Long, TAG_Float, TAG_Double, TAG_Byte_Array, beVal_beBytes, hmod,
      hcap, streamRead_all _ _ hne, List.drop_replicate]

theorem byteArray_capacity_witness :
    readValue 1 TAG_Byte_Array (.vArray (List.replicate 5 (GoValue.vUint8 0))) true
        (beBytes 4 10 ++ []) = .error (byteArrayMsg 10 5) ∧
      readValue 1 TAG_Byte_Array (.vSlice (.vUint8 0) [] 0) true
          (beBytes 4 10 ++ ([1, 2, 3, 4, 5, 6, 7, 8, 9, 10] ++ [])) =
        .ok (.vSlice (.vUint8 0)
          ([1, 2, 3, 4, 5, 6, 7, 8, 9, 10].map GoValue.vUint8) 10, []) := by
  have h := byteArray_capacity 0 10 (List.replicate 5 (GoValue.vUint8 0))
    [1, 2, 3, 4, 5, 6, 7, 8, 9, 10] [] 0 []
  exact ⟨h.1 (by norm_num) (by simp), h.2 (by norm_num) (by simp) (by simp)⟩

/-- Claim C5: a compound entry whose name has no corresponding field in
the destination struct makes the decode fail with the unhandled-field
error carrying that name; it is never skipped. -/
theorem unknown_field_fails (fuel : Nat) (fields : List (List Nat × GoValue))
    (name : List Nat) (tag : Nat) (rest : List Nat)
    (htag : tag ≠ TAG_End) (hname : name.length < 2 ^ 16) (hrest : rest ≠ [])
    (hlook : lookupField fields name = none) :
    readValue (fuel + 2) TAG_Compound (.vStruct fields) true
        (tag :: (beBytes 2 name.length ++ (name ++ rest))) =
      .error (unhandledFieldMsg tag name) := by
  have h2 : name ++ rest ≠ [] := by
    intro h
    exact hrest (List.append_eq_nil.mp h).2
  have htag0 : ¬ (tag = 0) := by simpa [TAG_End] using htag
  simp [readValue, compoundLoop, readTag, readFull_cons1, isNative, TAG_Byte, TAG_Short,
    TAG_Int, TAG_Long, TAG_Float, TAG_Double, TAG_Byte_Array, TAG_String, TAG_List,
    TAG_Compound, TAG_End, htag0, hlook, readString_exact name rest hname h2]

theorem unknown_field_fails_witness :
    readValue 2 TAG_Compound (.vStruct []) true
        (TAG_Byte :: (beBytes 2 1 ++ ([120] ++ [TAG_End]))) =
      .error (unhandledFieldMsg TAG_Byte [120]) :=
  unknown_field_fails 0 [] [120] TAG_Byte [TAG_End] (by decide) (by decide)
    (by decide) rfl

/-- Claim C7: a nil input stream, an unknown compression selector, or a
failing gzip/zlib transport initialization makes Unmarshal fail with the
configuration error for every fuel, every destination and every stream
content, i.e. before any tag byte is consumed; every init error is
surfaced unchanged to the caller. -/
theorem config_errors (fuel : Nat) (v : GoValue) (code : Nat) (bytes : List Nat)
    (c : Compression) (e : String) :
    initD c .nilReader = .error "nbt: Input stream is nil" ∧
      (initD c (.stream bytes) = .error e →
        Unmarshal fuel c (.stream bytes) v = .error e) ∧
      Unmarshal fuel c .nilReader v = .error "nbt: Input stream is nil" ∧
      Unmarshal fuel (.unknown code) (.stream bytes) v =
        .error ("nbt: Unknown compression type: " ++ toString code) ∧
      (gzipHeaderOk bytes = false →
        Unmarshal fuel .gzip (.stream bytes) v = .error "gzip: invalid header") ∧
      (zlibHeaderOk bytes = false →
        Unmarshal fuel .zlib (.stream bytes) v = .error "zlib: invalid header") := by
  refine ⟨rfl, ?_, ?_, ?_, ?_, ?_⟩
  · intro h
    simp [Unmarshal, h]
  · simp [Unmarshal, initD]
  · simp [Unmarshal, initD]
  · intro h
    simp [Unmarshal, initD, gzipNewReader, h]
  · intro h
    simp [Unmarshal, initD, zlibNewReader, h]

theorem config_errors_witness :
    Unmarshal 1 (Compression.unknown 7) (Input.stream [10, 0, 0, 0]) (GoValue.vInt8 0) =
        .error ("nbt: Unknown compression type: " ++ toString 7) ∧
      Unmarshal 1 Compression.gzip (Input.stream [10, 0, 0, 0]) (GoValue.vInt8 0) =
        .error "gzip: invalid header" ∧
      Unmarshal 1 Compression.zlib (Input.stream [10, 0, 0, 0]) (GoValue.vInt8 0) =
        .error "zlib: invalid header" ∧
      Unmarshal 1 Compression.uncompressed Input.nilReader (GoValue.vInt8 0) =
        .error "nbt: Input stream is nil" := by
  have h := config_errors 1 (GoValue.vInt8 0) 7 [10, 0, 0, 0] Compression.uncompressed ""
  have hg := config_errors 1 (GoValue.vInt8 0) 7 [10, 0, 0, 0] Compression.gzip ""
  have hz := config_errors 1 (GoValue.vInt8 0) 7 [10, 0, 0, 0] Compression.zlib ""
  exact ⟨h.2.2.2.1, hg.2.2.2.2.1 (by decide), hz.2.2.2.2.2 (by decide), h.2.2.1⟩


end NBT
